import Mathlib

/-!
Shallow embedding of the message-handling backend of the IoT monitoring
station repository (src/lesson5/homework5/backend/backend.py), centred on
the on_message callback installed by create_mqtt_receiver. The embedding
models the parsed JSON payload as an inductive value (json.loads failure
is represented by the payload argument being none), Python runtime
exceptions as an error type, and the InfluxDB sink as a function from the
attempt index to a success flag, so that the number of write_points calls
made by the handler is observable.
-/

namespace Backend

/-- Parsed JSON values as produced by Python json.loads: strings,
integers, floats (represented exactly as rationals, which is faithful for
the finite decimal literals that appear here), booleans, null, objects
(key-value lists with distinct keys, in insertion order) and arrays. -/
inductive Json where
  | str (s : String)
  | intNum (n : Int)
  | floatNum (q : ℚ)
  | boolVal (b : Bool)
  | null
  | obj (fields : List (String × Json))
  | arr (items : List Json)

/-- Python runtime exceptions that the handler body can raise. -/
inductive PyError where
  | jsonDecodeError
  | typeError
  | keyError
  | attributeError
  | valueError
  | writeUnavailable
deriving DecidableEq, Repr

/-- Calendar date and time carried by datetime.strptime results. -/
structure DateTime where
  year : Nat
  month : Nat
  day : Nat
  hour : Nat
  minute : Nat
  second : Nat
deriving DecidableEq, Repr

/-- One point appended to the messages list by on_message: the dict
with keys timestamp, measurement, tags (location, station) and
fields.value. -/
structure MeasurementRecord where
  timestamp : DateTime
  measurement : String
  location : String
  station : String
  value : ℚ
deriving DecidableEq, Repr

/-- Split of a character list at every occurrence of a separator
character, modelling Python str.split(sep) for a one-character sep: the
empty string yields one empty piece, and each separator occurrence ends
a piece, so adjacent, leading or trailing separators yield empty
pieces. -/
def splitOnSep (sep : Char) : List Char → List (List Char)
  | [] => [[]]
  | c :: rest =>
    match splitOnSep sep rest with
    | [] => if c == sep then [[], []] else [[c]]
    | piece :: pieces =>
      if c == sep then [] :: piece :: pieces
      else (c :: piece) :: pieces

/-- Python str.split(sep) for a one-character separator, on strings. -/
def pySplit (s : String) (sep : Char) : List String :=
  (splitOnSep sep s.toList).map String.mk

/-- Whether the first list is an initial run of the second. -/
def startsWithChars : List Char → List Char → Bool
  | [], _ => true
  | _ :: _, [] => false
  | a :: as, b :: bs => a == b && startsWithChars as bs

/-- Whether the first list occurs contiguously inside the second. -/
def hasSubstrChars (need : List Char) : List Char → Bool
  | [] => startsWithChars need []
  | c :: rest => startsWithChars need (c :: rest) || hasSubstrChars need rest

/-- Substring test, modelling the Python in-operator on strings (the
needle used by the handler is always the literal "timestamp"). -/
def hasSubstr (hay need : String) : Bool :=
  hasSubstrChars need.toList hay.toList

/-- Equality test of a JSON value against a string key, modelling Python
== between a str and an arbitrary value (False for every non-str). -/
def isStrEq (key : String) : Json → Bool
  | .str s => s == key
  | _ => false

/-- Python membership test `key in v` for a string key: key lookup on a
dict, substring test on a str, element equality on a list, and a
TypeError on int, float, bool and None operands. -/
def pyContains (key : String) : Json → Except PyError Bool
  | .obj fields => .ok (fields.any (fun kv => kv.1 == key))
  | .str s => .ok (hasSubstr s key)
  | .arr items => .ok (items.any (fun j => isStrEq key j))
  | _ => .error .typeError

/-- Python subscript `v[key]` for a string key: dict lookup (KeyError
when absent), TypeError on every other operand (str and list subscripts
demand integers). -/
def pyGetItem (key : String) : Json → Except PyError Json
  | .obj fields =>
    match List.lookup key fields with
    | some v => .ok v
    | none => .error .keyError
  | _ => .error .typeError

/-- Python `v.get(key)` for a string key: dict get with None default,
AttributeError on every operand without a get method. -/
def pyGet (key : String) : Json → Except PyError Json
  | .obj fields => .ok ((List.lookup key fields).getD .null)
  | _ => .error .attributeError

/-- Python isinstance(v, float): true exactly on float values (Python
ints and bools are not instances of float). -/
def isFloatVal : Json → Bool
  | .floatNum _ => true
  | _ => false

/-- The rational carried by a float value (only applied under an
isFloatVal guard). -/
def floatValOf : Json → ℚ
  | .floatNum q => q
  | _ => 0

/-- Value of a run of decimal digit characters. -/
def digitsVal : List Char → Nat → Nat
  | [], acc => acc
  | c :: rest, acc => digitsVal rest (acc * 10 + (c.toNat - '0'.toNat))

/-- Digit-run field of the strptime model: accepts between lo and hi
digit characters and returns their value. -/
def parseDigits (cs : List Char) (lo hi : Nat) : Option Nat :=
  if lo ≤ cs.length && cs.length ≤ hi && cs.all Char.isDigit then
    some (digitsVal cs 0)
  else
    none

/-- Gregorian leap-year test used for day-of-month validation. -/
def isLeapYear (y : Nat) : Bool :=
  (y % 4 == 0 && y % 100 != 0) || y % 400 == 0

/-- Number of days in a month of a given year. -/
def daysInMonth (y m : Nat) : Nat :=
  if m == 2 then (if isLeapYear y then 29 else 28)
  else if m == 4 || m == 6 || m == 9 || m == 11 then 30
  else 31

/-- Model of Python datetime.strptime(s, TIMESTAMP_FMT) for the fixed
format string of the source, "%Y-%m-%d %H:%M:%S", returning none where
Python raises ValueError. Python compiles the format to a regex in which
%Y matches exactly four digits, the other directives match one or two
digits constrained to their calendar ranges, and the datetime constructor
then rejects a day beyond the month length, a second above 59 and a year
below 1. The single literal blank is modelled as exactly one space
character. -/
def strptime (s : String) : Option DateTime :=
  match splitOnSep ' ' s.toList with
  | [datePart, timePart] =>
    match splitOnSep '-' datePart, splitOnSep ':' timePart with
    | [ys, ms, ds], [hs, mins, ss] =>
      match parseDigits ys 4 4, parseDigits ms 1 2, parseDigits ds 1 2,
            parseDigits hs 1 2, parseDigits mins 1 2, parseDigits ss 1 2 with
      | some y, some m, some d, some hh, some mi, some sec =>
        if 1 ≤ y && 1 ≤ m && m ≤ 12 && 1 ≤ d && d ≤ daysInMonth y m
            && hh ≤ 23 && mi ≤ 59 && sec ≤ 59 then
          some ⟨y, m, d, hh, mi, sec⟩
        else
          none
      | _, _, _, _, _, _ => none
    | _, _ => none
  | _ => none

/-- datetime.strptime applied to the value found under the timestamp key:
TypeError when that value is not a str, ValueError when the str does not
match the format. -/
def strptimeJson : Json → Except PyError DateTime
  | .str s =>
    match strptime s with
    | some dt => .ok dt
    | none => .error .valueError
  | _ => .error .typeError

/-- Body of the per-measurement loop of on_message. It follows the
source order exactly: membership test of the timestamp key (continue,
i.e. none, when absent), subscript for the timestamp, value lookup via
get (the source writes `None or ...get('value')`, which always equals
the get result since None is falsy), the isinstance float guard
(continue when it fails), and finally strptime evaluated while the
appended dict is built. An ok none is a skipped entry; an error is an
uncaught Python exception. -/
def processEntry (location station measurement : String) (entry : Json) :
    Except PyError (Option MeasurementRecord) :=
  match pyContains "timestamp" entry with
  | .error e => .error e
  | .ok false => .ok none
  | .ok true =>
    match pyGetItem "timestamp" entry with
    | .error e => .error e
    | .ok tsJson =>
      match pyGet "value" entry with
      | .error e => .error e
      | .ok value =>
        if !isFloatVal value then .ok none
        else
          match strptimeJson tsJson with
          | .error e => .error e
          | .ok dt =>
            .ok (some ⟨dt, measurement, location, station, floatValOf value⟩)

/-- The `for measurement in payload` loop of on_message over the entries
of a dict payload, in order; an exception raised at any entry aborts the
whole loop (and hence the message) before the write. -/
def decodeEntries (location station : String) :
    List (String × Json) → Except PyError (List MeasurementRecord)
  | [] => .ok []
  | (measurement, entry) :: rest =>
    match processEntry location station measurement entry with
    | .error e => .error e
    | .ok res =>
      match decodeEntries location station rest with
      | .error e => .error e
      | .ok msgs =>
        .ok (match res with
             | some r => r :: msgs
             | none => msgs)

/-- The iteration protocol of `for measurement in payload` together with
the first subscript, for the top-level payload value. A dict yields its
key-entry pairs. Empty strings and empty lists yield no iterations. An
int, float, bool or None payload raises TypeError (not iterable). A
non-empty string or list payload always raises while iterating: every
element is itself used as the subscript `payload[measurement]`, so a
string raises TypeError at its first character subscript, and a list
either raises at a non-integer subscript or reaches a membership test on
an int or bool entry, which raises; the error is collapsed to typeError
here (Python may raise IndexError for an out-of-range list subscript,
a distinction no property below depends on). -/
def iterKeys : Json → Except PyError (List (String × Json))
  | .obj fields => .ok fields
  | .str s => if s.isEmpty then .ok [] else .error .typeError
  | .arr items => if items.isEmpty then .ok [] else .error .typeError
  | _ => .error .typeError

/-- The on_message callback of create_mqtt_receiver, parametrised by the
sink: sink n says whether the n-th write_points call of this message
succeeds. The payload argument is the result of
json.loads(message.payload.decode()), with none standing for the raised
exception when decoding or parsing fails. The result pairs the outcome
(the messages list on success, the uncaught exception otherwise) with
the number of write_points calls the handler made. The topic-shape
guard returns before the payload is ever touched; write_points is
called only when the messages list is non-empty, and only once. -/
def on_messageSink (sink : Nat → Bool) (topic : String)
    (payloadRes : Option Json) :
    Except PyError (List MeasurementRecord) × Nat :=
  match pySplit topic '/' with
  | [location, station] =>
    match payloadRes with
    | none => (.error .jsonDecodeError, 0)
    | some payload =>
      match iterKeys payload with
      | .error e => (.error e, 0)
      | .ok entries =>
        match decodeEntries location station entries with
        | .error e => (.error e, 0)
        | .ok msgs =>
          if msgs.isEmpty then (.ok msgs, 0)
          else if sink 0 then (.ok msgs, 1)
          else (.error .writeUnavailable, 1)
  | _ => (.ok [], 0)

/-- on_message against an available sink (every write_points call
succeeds). -/
def on_message (topic : String) (payloadRes : Option Json) :
    Except PyError (List MeasurementRecord) × Nat :=
  on_messageSink (fun _ => true) topic payloadRes

/-- The topic-to-identity step of on_message in isolation (lines
`if len(topic.split("/")) != 2: return` and
`location, station = topic.split("/")`): some (location, station) when
the topic splits on "/" into exactly two segments, none otherwise. -/
def route (topic : String) : Option (String × String) :=
  match pySplit topic '/' with
  | [location, station] => some (location, station)
  | _ => none

/-- The key-membership boolean used by the Python in-operator on a dict
agrees with presence of the key in the association list. -/
theorem any_key_eq_lookup_isSome (k : String) (fields : List (String × Json)) :
    (fields.any fun kv => kv.1 == k) = (List.lookup k fields).isSome := by
  induction fields with
  | nil => rfl
  | cons p rest ih =>
    obtain ⟨pk, pv⟩ := p
    by_cases hpk : pk = k
    · subst hpk
      simp [List.lookup]
    · have h1 : (pk == k) = false := beq_eq_false_iff_ne.mpr hpk
      have h2 : (k == pk) = false := beq_eq_false_iff_ne.mpr (Ne.symm hpk)
      simp [List.any_cons, List.lookup, h1, h2, ih]

/-- C1 (amended): routing succeeds with the location-station identity iff
the topic splits on the path separator into exactly two segments, empty
segments allowed; a topic with no separator or more than one separator
fails, and the message is then dropped with zero records produced and no
sink call. (The non-emptiness requirement of the original claim does not
hold on the code: see the counterexample.) -/
theorem C1_route_exactly_two_segments (t : String) (p : Option Json)
    (sink : Nat → Bool) :
    (∀ l s, route t = some (l, s) ↔ pySplit t '/' = [l, s]) ∧
    (route t = none → on_messageSink sink t p = (.ok [], 0)) := by
  constructor
  · intro l s
    unfold route
    rcases h : pySplit t '/' with _ | ⟨a, _ | ⟨b, _ | ⟨c, rest⟩⟩⟩ <;> simp
  · intro hnone
    unfold route at hnone
    unfold on_messageSink
    rcases h : pySplit t '/' with _ | ⟨a, _ | ⟨b, _ | ⟨c, rest⟩⟩⟩ <;>
      simp_all

/-- C1 counterexample: the topic "a/" splits into the segments "a" and
"", the second empty, yet routing succeeds and on_message goes on to
produce and write a record instead of failing with InvalidTopic and
dropping the message. -/
theorem C1_counterexample_empty_segment :
    route "a/" = some ("a", "") ∧
    on_message "a/" (some (.obj [("temperature", .obj
        [("timestamp", .str "2024-01-01 12:00:00"),
         ("value", .floatNum (21.5 : ℚ))])]))
      = (.ok [⟨⟨2024, 1, 1, 12, 0, 0⟩, "temperature", "a", "",
               (21.5 : ℚ)⟩], 1) :=
  ⟨rfl, rfl⟩

/-- C1 witness: the routing theorem applied at the separator-free topic
"badtopic" with an absent payload. -/
theorem C1_witness :
    Backend.on_messageSink (fun _ => true) "badtopic" none = (.ok [], 0) :=
  (C1_route_exactly_two_segments "badtopic" none (fun _ => true)).2 rfl

/-- A successful per-entry decode only ever carries a timestamp obtained
by parsing, in the fixed format, the str found under the timestamp
key. -/
theorem processEntry_ok_some (loc st meas : String) (entry : Json)
    (r : MeasurementRecord)
    (h : processEntry loc st meas entry = .ok (some r)) :
    ∃ s, pyGetItem "timestamp" entry = .ok (.str s) ∧
      strptime s = some r.timestamp := by
  unfold processEntry at h
  split at h
  · exact absurd h (by simp)
  · exact absurd h (by simp)
  · split at h
    · exact absurd h (by simp)
    · rename_i tsJson hts
      split at h
      · exact absurd h (by simp)
      · split at h
        · exact absurd h (by simp)
        · split at h
          · exact absurd h (by simp)
          · rename_i dt hdt
            simp only [Except.ok.injEq, Option.some.injEq] at h
            cases tsJson with
            | str s =>
              refine ⟨s, hts, ?_⟩
              simp only [strptimeJson] at hdt
              cases hs : strptime s with
              | none => rw [hs] at hdt; exact absurd hdt (by simp)
              | some dt' =>
                rw [hs] at hdt
                simp only [Except.ok.injEq] at hdt
                subst hdt
                rw [← h]
            | intNum n => exact absurd hdt (by simp [strptimeJson])
            | floatNum q => exact absurd hdt (by simp [strptimeJson])
            | boolVal b => exact absurd hdt (by simp [strptimeJson])
            | null => exact absurd hdt (by simp [strptimeJson])
            | obj fs => exact absurd hdt (by simp [strptimeJson])
            | arr items => exact absurd hdt (by simp [strptimeJson])

/-- C2 (amended): every MeasurementRecord produced by the per-entry
decode carries a timestamp obtained by a successful fixed-format parse
of the str found under the timestamp key, and an entry whose timestamp
is absent is dropped non-fatally (the step yields ok none and the rest
of the payload is still processed); however an entry whose timestamp is
present but unparseable is not dropped: with a float value the strptime
call raises and the error escapes the handler, as the counterexample
shows. -/
theorem C2_timestamp_presence (loc st meas : String) (entry : Json) :
    (∀ fields, entry = .obj fields →
        List.lookup "timestamp" fields = none →
        processEntry loc st meas entry = .ok none) ∧
    (∀ r, processEntry loc st meas entry = .ok (some r) →
        ∃ s, pyGetItem "timestamp" entry = .ok (.str s) ∧
          strptime s = some r.timestamp) := by
  constructor
  · intro fields hf hnone
    subst hf
    have hmem : (fields.any fun kv => kv.1 == "timestamp") = false := by
      rw [any_key_eq_lookup_isSome, hnone]
      rfl
    simp [processEntry, pyContains, hmem]
  · intro r hr
    exact processEntry_ok_some loc st meas entry r hr

/-- C2 counterexample: an entry whose timestamp is present but not in
the fixed format, with a float value, is not dropped non-fatally: the
strptime call raises ValueError and the whole message fails, no record
and no overall success. -/
theorem C2_counterexample_unparseable_timestamp :
    on_message "a/b" (some (.obj [("t1", .obj
        [("timestamp", .str "bad"), ("value", .floatNum 1)])]))
      = (.error .valueError, 0) := rfl

/-- C2 witness: the amended theorem applied to an entry without a
timestamp key, which is dropped with the decode still succeeding. -/
theorem C2_witness :
    Backend.processEntry "loc" "st" "m" (.obj [("other", .null)])
      = .ok none :=
  (C2_timestamp_presence "loc" "st" "m" (.obj [("other", .null)])).1
    [("other", .null)] rfl rfl

/-- C3 (amended): when the payload cannot be parsed as JSON, the
failure is not contained: on any routable two-segment topic the raised
decode error escapes on_message, the message yields no records, and no
sink write is made. (The claim that the error is logged, the message
dropped and no exception propagates is false on the code: there is no
handler around json.loads, as the counterexample shows.) -/
theorem C3_malformed_payload_raises (sink : Nat → Bool) (t : String)
    (h : (pySplit t '/').length = 2) :
    on_messageSink sink t none = (.error .jsonDecodeError, 0) := by
  obtain ⟨a, b, hab⟩ := List.length_eq_two.mp h
  unfold on_messageSink
  rw [hab]

/-- C3 counterexample: on the topic "x/y" with an unparseable payload,
the handler propagates the raised decode error instead of logging and
dropping the single message. -/
theorem C3_counterexample_error_escapes :
    on_message "x/y" none = (.error .jsonDecodeError, 0) := rfl

/-- C3 witness: the amended theorem applied at the topic "a/b". -/
theorem C3_witness :
    Backend.on_messageSink (fun _ => true) "a/b" none
      = (.error .jsonDecodeError, 0) :=
  C3_malformed_payload_raises (fun _ => true) "a/b" rfl

/-- C4 (amended): for an entry with a present, parseable timestamp, a
MeasurementRecord is produced exactly when the entry value is a Python
float; a value that is an int, a str, a bool, null, a mapping, a list,
or absent is excluded from the output while the decode of that entry
still succeeds. In particular an integer value — a real number — is
dropped, contrary to the original claim, as the counterexample shows. -/
theorem C4_float_only_values (loc st meas : String) (s : String)
    (fields : List (String × Json)) (dt : DateTime)
    (hts : List.lookup "timestamp" fields = some (.str s))
    (hdt : strptime s = some dt) :
    processEntry loc st meas (.obj fields) =
      match (List.lookup "value" fields).getD .null with
      | .floatNum q => .ok (some ⟨dt, meas, loc, st, q⟩)
      | _ => .ok none := by
  have hmem : ((fields.any fun kv => kv.1 == "timestamp")) = true := by
    rw [any_key_eq_lookup_isSome, hts]
    rfl
  cases hv : List.lookup "value" fields with
  | none =>
    simp [processEntry, pyContains, pyGetItem, pyGet, hmem, hts, hv,
      isFloatVal]
  | some v =>
    cases v <;>
      simp [processEntry, pyContains, pyGetItem, pyGet, hmem, hts, hv,
        isFloatVal, strptimeJson, hdt, floatValOf]

/-- C4 counterexample: an entry whose value is the integer 5, with a
valid timestamp, produces no record — the message decodes to an empty
batch — contradicting the claim that any real number such as an integer
is accepted. -/
theorem C4_counterexample_int_value_dropped :
    on_message "a/b" (some (.obj [("temperature", .obj
        [("timestamp", .str "2024-01-01 12:00:00"),
         ("value", .intNum 5)])]))
      = (.ok [], 0) := rfl

/-- C4 witness: the amended theorem applied to an entry carrying a
float value, which does produce the record. -/
theorem C4_witness :
    Backend.processEntry "l" "s" "m" (.obj
        [("timestamp", .str "2024-01-01 12:00:00"),
         ("value", .floatNum (21.5 : ℚ))])
      = .ok (some ⟨⟨2024, 1, 1, 12, 0, 0⟩, "m", "l", "s", (21.5 : ℚ)⟩) := by
  have h := C4_float_only_values "l" "s" "m" "2024-01-01 12:00:00"
    [("timestamp", .str "2024-01-01 12:00:00"),
     ("value", .floatNum (21.5 : ℚ))]
    ⟨2024, 1, 1, 12, 0, 0⟩ rfl rfl
  exact h.trans rfl

/-- Validity of a payload entry in the sense of the spec: the entry is
a mapping carrying a timestamp str that parses in the fixed format and
a float value. -/
def validEntryB (p : String × Json) : Bool :=
  match p.2 with
  | .obj fields =>
    (match List.lookup "timestamp" fields with
     | some (.str s) => (strptime s).isSome
     | _ => false)
    &&
    (match List.lookup "value" fields with
     | some (.floatNum _) => true
     | _ => false)
  | _ => false

/-- A valid entry decodes to a record. -/
theorem processEntry_of_valid (loc st meas : String) (entry : Json)
    (h : validEntryB (meas, entry) = true) :
    ∃ r, processEntry loc st meas entry = .ok (some r) := by
  cases entry with
  | str s => simp [validEntryB] at h
  | intNum n => simp [validEntryB] at h
  | floatNum q => simp [validEntryB] at h
  | boolVal b => simp [validEntryB] at h
  | null => simp [validEntryB] at h
  | arr items => simp [validEntryB] at h
  | obj fields =>
  simp only [validEntryB, Bool.and_eq_true] at h
  obtain ⟨h1, h2⟩ := h
  cases hts : List.lookup "timestamp" fields with
  | none => rw [hts] at h1; exact absurd h1 (by simp)
  | some tv =>
    rw [hts] at h1
    cases tv with
    | intNum n => simp at h1
    | floatNum q => simp at h1
    | boolVal b => simp at h1
    | null => simp at h1
    | obj fs => simp at h1
    | arr items => simp at h1
    | str s =>
    have h1s : (strptime s).isSome = true := by simpa using h1
    obtain ⟨dt, hdt⟩ := Option.isSome_iff_exists.mp h1s
    cases hv : List.lookup "value" fields with
    | none => rw [hv] at h2; exact absurd h2 (by simp)
    | some vv =>
      rw [hv] at h2
      cases vv with
      | str s2 => simp at h2
      | intNum n => simp at h2
      | boolVal b => simp at h2
      | null => simp at h2
      | obj fs => simp at h2
      | arr items => simp at h2
      | floatNum q =>
        have hmem : ((fields.any fun kv => kv.1 == "timestamp")) = true := by
          rw [any_key_eq_lookup_isSome, hts]
          rfl
        exact ⟨⟨dt, meas, loc, st, q⟩, by
          simp [processEntry, pyContains, pyGetItem, pyGet, hmem, hts,
            hv, isFloatVal, strptimeJson, hdt, floatValOf]⟩

/-- A payload whose entries are all valid decodes to exactly one record
per entry, in order, with no exception and no drop. -/
theorem decodeEntries_all_valid (loc st : String)
    (fields : List (String × Json))
    (h : fields.all validEntryB = true) :
    ∃ msgs, decodeEntries loc st fields = .ok msgs ∧
      msgs.length = fields.length := by
  induction fields with
  | nil => exact ⟨[], rfl, rfl⟩
  | cons p rest ih =>
    obtain ⟨pk, pv⟩ := p
    rw [List.all_cons, Bool.and_eq_true] at h
    obtain ⟨r, hr⟩ := processEntry_of_valid loc st pk pv h.1
    obtain ⟨msgs, hm, hlen⟩ := ih h.2
    refine ⟨r :: msgs, ?_, by simp [hlen]⟩
    unfold decodeEntries
    rw [hr, hm]

/-- C5: for a payload in which every entry has a valid fixed-format
timestamp and a float value, the handler decodes exactly one
MeasurementRecord per payload entry, with no drops. -/
theorem C5_all_valid_no_drops (loc st t : String)
    (fields : List (String × Json))
    (htopic : pySplit t '/' = [loc, st])
    (hvalid : fields.all validEntryB = true) :
    ∃ msgs, (on_message t (some (.obj fields))).1 = .ok msgs ∧
      msgs.length = fields.length := by
  obtain ⟨msgs, hm, hlen⟩ := decodeEntries_all_valid loc st fields hvalid
  refine ⟨msgs, ?_, hlen⟩
  unfold on_message on_messageSink
  rw [htopic]
  simp only [iterKeys]
  rw [hm]
  cases he : msgs.isEmpty <;> simp [he]

/-- C5 witness: the theorem applied to the one-entry Scenario A
payload on its topic. -/
theorem C5_witness :
    ∃ msgs,
      (Backend.on_message "greenhouse1/stationA" (some (.obj
        [("temperature", .obj
          [("timestamp", .str "2024-01-01 12:00:00"),
           ("value", .floatNum (21.5 : ℚ))])]))).1 = .ok msgs ∧
      msgs.length = 1 :=
  C5_all_valid_no_drops "greenhouse1" "stationA" "greenhouse1/stationA"
    [("temperature", .obj
      [("timestamp", .str "2024-01-01 12:00:00"),
       ("value", .floatNum (21.5 : ℚ))])]
    rfl rfl

/-- C6 (amended): the handler performs no retries at all: for every sink
behaviour, topic and payload, on_message makes at most one write_points
call, so a failed write is never reattempted and a batch whose first
write fails is never committed (see the counterexample). -/
theorem C6_at_most_one_write_attempt (sink : Nat → Bool) (t : String)
    (p : Option Json) :
    (on_messageSink sink t p).2 ≤ 1 := by
  unfold on_messageSink
  split
  · split
    · simp
    · split
      · simp
      · split
        · simp
        · split
          · simp
          · split <;> simp
  · simp

/-- C6 counterexample: against a sink that fails the first three write
attempts and would succeed from the fourth on, the handler makes exactly
one write attempt for the Scenario A message, the write error escapes,
and the batch is never committed — refuting the claim that the batch is
retried exactly three times and then committed. -/
theorem C6_counterexample_no_retry :
    on_messageSink (fun n => Nat.ble 3 n) "greenhouse1/stationA"
      (some (.obj [("temperature", .obj
        [("timestamp", .str "2024-01-01 12:00:00"),
         ("value", .floatNum (21.5 : ℚ))])]))
      = (.error .writeUnavailable, 1) := rfl

/-- C7: Scenario A — the topic "greenhouse1/stationA" with the
temperature payload produces exactly one MeasurementRecord tagged with
location "greenhouse1" and station "stationA", measurement name
"temperature", value 21.5, and timestamp 2024-01-01 12:00:00 parsed in
the fixed format, and that single record is written. -/
theorem C7_scenario_a :
    on_message "greenhouse1/stationA"
      (some (.obj [("temperature", .obj
        [("timestamp", .str "2024-01-01 12:00:00"),
         ("value", .floatNum (21.5 : ℚ))])]))
      = (.ok [⟨⟨2024, 1, 1, 12, 0, 0⟩, "temperature", "greenhouse1",
               "stationA", (21.5 : ℚ)⟩], 1) := rfl

/-- C8: flushing an empty batch is a no-op — whenever the handler
completes with zero valid MeasurementRecords, it makes no write_points
call at all. -/
theorem C8_empty_batch_no_write (sink : Nat → Bool) (t : String)
    (p : Option Json) (res : Except PyError (List MeasurementRecord))
    (n : Nat)
    (h : on_messageSink sink t p = (res, n)) (hres : res = .ok []) :
    n = 0 := by
  subst hres
  unfold on_messageSink at h
  split at h
  · split at h
    · simp_all
    · split at h
      · simp_all
      · split at h
        · simp_all
        · split at h
          · simp_all
          · split at h <;> simp_all
  · simp_all

/-- C8 witness: the theorem applied to an empty-object payload, whose
decode yields zero records and whose write count is zero. -/
theorem C8_witness :
    Backend.on_messageSink (fun _ => true) "a/b" (some (.obj []))
        = (.ok [], 0) ∧
      (0 : Nat) = 0 :=
  ⟨rfl, C8_empty_batch_no_write (fun _ => true) "a/b" (some (.obj []))
    (.ok []) 0 rfl rfl⟩

/-- C9: the handler is not total over decoded payloads — for the
well-formed JSON payload whose top level is a mapping but whose single
entry is the bare number 5, the per-entry membership test
(timestamp in payload entry) raises TypeError instead of skipping the
entry, and the exception escapes the handler with no record and no
write. -/
theorem C9_non_mapping_entry_raises :
    on_message "location1/station1" (some (.obj [("temperature", .intNum 5)]))
      = (.error .typeError, 0) := rfl

/-- C10: routing is checked before the payload is parsed — whenever the
topic does not split into exactly two segments, the handler returns
right after the topic guard with zero records, no decode of the payload
(even an unparseable payload, payloadRes none, cannot raise) and no
sink write, for every sink behaviour. -/
theorem C10_invalid_topic_short_circuits (sink : Nat → Bool) (t : String)
    (p : Option Json)
    (h : (pySplit t '/').length ≠ 2) :
    on_messageSink sink t p = (.ok [], 0) := by
  unfold on_messageSink
  rcases hs : pySplit t '/' with _ | ⟨a, _ | ⟨b, _ | ⟨c, rest⟩⟩⟩
  · rfl
  · rfl
  · exact absurd (by rw [hs]; rfl) h
  · rfl

/-- C10 witness: the theorem applied at the three-segment topic "a/b/c"
with an unparseable payload, which is dropped without any decode
error. -/
theorem C10_witness :
    Backend.on_messageSink (fun _ => true) "a/b/c" none = (.ok [], 0) :=
  C10_invalid_topic_short_circuits (fun _ => true) "a/b/c" none (by decide)

end Backend
